import Mathlib

/-!
Verification of the template-composition and resource-introspection layer
of the Sparta repository (`cloudformation_resources.go`), as a shallow
embedding in Lean 4.

Modelling conventions:
* Go maps (`map[string]T`) are modelled as association lists
  `List (String × T)`; the uniqueness of keys that Go maps guarantee is
  carried as `Nodup` hypotheses on the `.map Prod.fst` projection where a
  proof needs it.
* Stateful Go code (`safeMergeTemplates` mutates `destTemplate` through a
  pointer) is modelled by explicit state passing: the function returns the
  updated destination, the unchanged source, the accumulated error strings,
  the log lines it emits, and the returned `error` value.
* The Go `error` results are modelled as `Option String` (`none` = nil error).
* The structured logger (Sirupsen/logrus) is modelled by returning the
  emitted message strings.  `logger.Fatal` in that library logs at fatal
  level and then calls `os.Exit(1)`, i.e. it aborts the process; this is
  modelled by a dedicated process-exit outcome.
-/

set_option maxRecDepth 20000

namespace Sparta

/-- The stream-specification sub-object of a DynamoDB table
(`gocf.DynamoDBTable.StreamSpecification`, a pointer that the source only
compares against `nil`; its payload is opaque to this file). -/
structure StreamSpecification where
  StreamViewType : String
deriving DecidableEq

/-- The resource-kind variants that the `switch` statement of
`resourceOutputs` distinguishes (`gocf.ResourceProperties` values).  The
`other` constructor stands for every resource type not named in the switch,
carrying the concrete type name (the `%T` the warning prints). -/
inductive ResourceProperties where
  | iamRole : ResourceProperties
  | dynamoDBTable : Option StreamSpecification → ResourceProperties
  | kinesisStream : ResourceProperties
  | route53RecordSet : ResourceProperties
  | s3Bucket : ResourceProperties
  | snsTopic : ResourceProperties
  | sqsQueue : ResourceProperties
  | other : String → ResourceProperties
deriving DecidableEq

/-- Model of `CfnResourceType()` of the go-cloudformation library: the canonical
CloudFormation type name of each resource kind (external to src, the
standard AWS type names). -/
def CfnResourceType : ResourceProperties → String
  | ResourceProperties.iamRole => "AWS::IAM::Role"
  | ResourceProperties.dynamoDBTable _ => "AWS::DynamoDB::Table"
  | ResourceProperties.kinesisStream => "AWS::Kinesis::Stream"
  | ResourceProperties.route53RecordSet => "AWS::Route53::RecordSet"
  | ResourceProperties.s3Bucket => "AWS::S3::Bucket"
  | ResourceProperties.snsTopic => "AWS::SNS::Topic"
  | ResourceProperties.sqsQueue => "AWS::SQS::Queue"
  | ResourceProperties.other kindName => kindName

/-- A template resource entry (`gocf.Resource`): its properties plus the
two lazily initialised optional collections. -/
structure Resource where
  Properties : ResourceProperties
  DependsOn : Option (List String)
  Metadata : Option (List (String × String))
deriving DecidableEq

/-- A `Mappings` entry; its nested structure is opaque to this layer, so it
is modelled as an opaque payload. -/
structure MappingEntry where
  payload : String
deriving DecidableEq

/-- An `Outputs` entry; opaque to this layer. -/
structure OutputEntry where
  payload : String
deriving DecidableEq

/-- Model of `gocf.Template`: the three collections keyed by logical name. -/
structure Template where
  Resources : List (String × Resource)
  Mappings : List (String × MappingEntry)
  Outputs : List (String × OutputEntry)
deriving DecidableEq

/-- Result of `resourceOutputs`: the returned `[]string`, the warning
messages emitted on the logger side channel, and the returned `error`. -/
structure OutputsResult where
  outputProps : List String
  warnings : List String
  err : Option String
deriving DecidableEq

/-- Model of `resourceOutputs` (src/cloudformation_resources.go lines 21-49): the
type-switch mapping each resource kind to its conditional output attribute
names.  Every branch returns a nil error; the default branch emits a
warning naming the concrete type. -/
def resourceOutputs (resourceName : String) (resource : ResourceProperties) :
    OutputsResult :=
  match resource with
  | ResourceProperties.iamRole => OutputsResult.mk [] [] none
  | ResourceProperties.dynamoDBTable streamSpecification =>
      match streamSpecification with
      | some _ => OutputsResult.mk ["StreamArn"] [] none
      | none => OutputsResult.mk [] [] none
  | ResourceProperties.kinesisStream => OutputsResult.mk ["Arn"] [] none
  | ResourceProperties.route53RecordSet => OutputsResult.mk [] [] none
  | ResourceProperties.s3Bucket =>
      OutputsResult.mk ["DomainName", "WebsiteURL"] [] none
  | ResourceProperties.snsTopic => OutputsResult.mk ["TopicName"] [] none
  | ResourceProperties.sqsQueue =>
      OutputsResult.mk ["Arn", "QueueName"] [] none
  | ResourceProperties.other kindName =>
      OutputsResult.mk []
        ["Discovery information for dependency not yet implemented: ResourceType=" ++ kindName]
        none

/-- Observable outcome of a Go function call whose body may call
`logger.Fatal`: either a normal return (value, error), or a process exit
(exit code and the fatal log message), after which no value is returned to
the caller. -/
inductive GoOutcome (α : Type) where
  | ret : Option α → Option String → GoOutcome α
  | exit : Nat → String → GoOutcome α
deriving DecidableEq

/-- Model of `newCloudFormationResource` (lines 51-60).  `gocf.NewResourceByType` is
the external registry factory, passed here as a parameter returning
`none` when the type name is unsupported.  In that case the source calls
`logger.Fatal`, and Sirupsen/logrus `Fatal` logs then calls `os.Exit(1)`,
so the following `return nil, fmt.Errorf("Unsupported CustomResourceType: %s", ...)`
statement is unreachable: the observable outcome is a process exit. -/
def newCloudFormationResource
    (newResourceByType : String → Option ResourceProperties)
    (resourceType : String) : GoOutcome ResourceProperties :=
  match newResourceByType resourceType with
  | some resProps => GoOutcome.ret (some resProps) none
  | none => GoOutcome.exit 1 "Failed to create CloudFormation CustomResource!"

/-- The field struct fed to the discovery text template (lines 62-66). -/
structure discoveryDataTemplate where
  ResourceID : String
  ResourceType : String
  ResourceProperties : String
deriving DecidableEq

/-- Literal segment of the discovery template before `<< .ResourceID >>`. -/
def discoverySeg0 : String := "\n\t\x7b\n\t\t\"ResourceID\" : \""

/-- Literal segment between `<< .ResourceID >>` and its second occurrence. -/
def discoverySeg1 : String := "\",\n\t\t\"ResourceRef\" : \"\x7b\"Ref\":\""

/-- Literal segment between the second `<< .ResourceID >>` and
`<< .ResourceType >>`. -/
def discoverySeg2 : String := "\"\x7d\",\n\t\t\"ResourceType\" : \""

/-- Literal segment between `<< .ResourceType >>` and
`<< .ResourceProperties >>`. -/
def discoverySeg3 : String := "\",\n\t\t\"Properties\" : \x7b\n\t\t\t"

/-- Literal trailing segment of the discovery template. -/
def discoverySeg4 : String := "\n\t\t\x7d\n\t\x7d\n"

/-- Model of `discoveryDataForResourceDependency` (lines 68-77): the raw template
string, byte for byte, decomposed into its literal segments and the three
`<< ... >>` placeholders of the text/template engine (delimiters `<<`,
`>>`). -/
def discoveryDataForResourceDependency : String :=
  discoverySeg0 ++ "<< .ResourceID >>" ++ discoverySeg1 ++ "<< .ResourceID >>" ++
    discoverySeg2 ++ "<< .ResourceType >>" ++ discoverySeg3 ++
    "<< .ResourceProperties >>" ++ discoverySeg4

/-- Execution of the parsed discovery template on a field struct: the text
template engine replaces each placeholder with the corresponding field and
keeps every literal segment (parsing the fixed, well-formed pattern and
looking up the existing struct fields cannot fail, so `Execute` returns a
nil error for this data). -/
def executeDiscoveryTemplate (d : discoveryDataTemplate) : String :=
  discoverySeg0 ++ d.ResourceID ++ discoverySeg1 ++ d.ResourceID ++
    discoverySeg2 ++ d.ResourceType ++ discoverySeg3 ++
    d.ResourceProperties ++ discoverySeg4

/-- One entry of `quotedAttrs` (lines 100-104): the Sprintf pattern
`"%s" :"{ "Fn::GetAtt" : [ "%s", "%s" ] }"` applied to an output attribute
name and the logical resource name. -/
def quotedAttr (logicalResourceName eachOutput : String) : String :=
  "\"" ++ eachOutput ++ "\" :\"\x7b \"Fn::GetAtt\" : [ \"" ++
    logicalResourceName ++ "\", \"" ++ eachOutput ++ "\" ] \x7d\""

/-- Model of `discoveryResourceInfoForDependency` (lines 79-119).  Returns the
rendered bytes (modelled as `Option String`, `none` standing for the nil
byte slice) and the `error` result. -/
def discoveryResourceInfoForDependency (cfTemplate : Template)
    (logicalResourceName : String) : Option String × Option String :=
  match List.lookup logicalResourceName cfTemplate.Resources with
  | none => (none, none)
  | some item =>
      let res := resourceOutputs logicalResourceName item.Properties
      match res.err with
      | some e => (none, some e)
      | none =>
          let quotedAttrs :=
            res.outputProps.map (fun eachOutput =>
              quotedAttr logicalResourceName eachOutput)
          let templateData :=
            discoveryDataTemplate.mk logicalResourceName
              (CfnResourceType item.Properties)
              (String.intercalate "," quotedAttrs)
          (some (executeDiscoveryTemplate templateData), none)

/-- One collection pass of `safeMergeTemplates` (the three identical
`for eachKey, eachVal := range source...` loops, lines 157-187): iterate
over the source collection; a key already present in the (growing)
destination records an error message and is not inserted, an absent key is
appended to the destination.  Returns the updated destination collection
and the error messages recorded by this pass, in iteration order. -/
def mergeCollection {α : Type} (mkErr : String → String) :
    List (String × α) → List (String × α) → List (String × α) × List String
  | [], destColl => (destColl, [])
  | (eachKey, eachVal) :: rest, destColl =>
      if (List.lookup eachKey destColl).isSome then
        let r := mergeCollection mkErr rest destColl
        (r.1, mkErr eachKey :: r.2)
      else
        mergeCollection mkErr rest (destColl ++ [(eachKey, eachVal)])

/-- The collision message for a duplicate resource key (line 160). -/
def duplicateResourceMsg (eachKey : String) : String :=
  "Duplicate CloudFormation resource name: " ++ eachKey

/-- The collision message for a duplicate mapping key (line 171). -/
def duplicateMappingMsg (eachKey : String) : String :=
  "Duplicate CloudFormation Mapping name: " ++ eachKey

/-- The collision message for a duplicate output key (line 182). -/
def duplicateOutputMsg (eachKey : String) : String :=
  "Duplicate CloudFormation output key name: " ++ eachKey

/-- Full observable result of `safeMergeTemplates`: the source template
(the function only reads it, so explicit state passing returns it as is),
the mutated destination, the accumulated `mergeErrors`, the error-level
log lines, and the returned `error`. -/
structure MergeResult where
  sourceTemplate : Template
  destTemplate : Template
  mergeErrors : List String
  logs : List String
  err : Option String
deriving DecidableEq

/-- Model of `safeMergeTemplates` (lines 153-196): merge the three collections in
order (Resources, Mappings, Outputs), then, if any collision message was
recorded, log the header line and one tab-indented line per collision and
return the `Template merge failed` error; otherwise return a nil error.
The destination keeps every non-colliding insertion in both cases. -/
def safeMergeTemplates (sourceTemplate destTemplate : Template) :
    MergeResult :=
  let resMerge :=
    mergeCollection duplicateResourceMsg sourceTemplate.Resources
      destTemplate.Resources
  let mapMerge :=
    mergeCollection duplicateMappingMsg sourceTemplate.Mappings
      destTemplate.Mappings
  let outMerge :=
    mergeCollection duplicateOutputMsg sourceTemplate.Outputs
      destTemplate.Outputs
  let mergeErrors := resMerge.2 ++ mapMerge.2 ++ outMerge.2
  let newDest := Template.mk resMerge.1 mapMerge.1 outMerge.1
  MergeResult.mk sourceTemplate newDest mergeErrors
    (if mergeErrors.length > 0 then
      "Failed to update template. The following collisions were found:" ::
        mergeErrors.map (fun eachError => "\t" ++ eachError)
     else [])
    (if mergeErrors.length > 0 then some "Template merge failed" else none)

/-- A queue resource used by the concrete witnesses. -/
def wResQ : Resource := Resource.mk ResourceProperties.sqsQueue none none

/-- A bucket resource used by the concrete witnesses. -/
def wResB : Resource := Resource.mk ResourceProperties.s3Bucket none none

/-- Concrete source template for the merge witnesses: resources `A` and
`B`, mapping `M`, output `O`. -/
def wSrc : Template :=
  Template.mk [("A", wResQ), ("B", wResB)]
    [("M", MappingEntry.mk "m")] [("O", OutputEntry.mk "o")]

/-- Concrete destination template for the merge witnesses: resource `A`
(colliding), output `P` (not colliding). -/
def wDst : Template :=
  Template.mk [("A", wResB)] [] [("P", OutputEntry.mk "p")]

/-- Concrete destination for the C2 witness: collides with `wSrc` both in
Resources (key `A`) and in Outputs (key `O`). -/
def wDst2 : Template :=
  Template.mk [("A", wResB)] [] [("O", OutputEntry.mk "q"), ("P", OutputEntry.mk "p")]

/-- Concrete disjoint destination for the C8 witness. -/
def wDst3 : Template :=
  Template.mk [("C", wResB)] [("N", MappingEntry.mk "n")] [("P", OutputEntry.mk "p")]

/-- Concrete template holding a queue named `MyQueue`, for the C5 witness. -/
def wTQ : Template :=
  Template.mk [("MyQueue", Resource.mk ResourceProperties.sqsQueue none none)] [] []

/-! Association-list lemmas -/

theorem lookup_append {α : Type} (k : String) (l₁ l₂ : List (String × α)) :
    List.lookup k (l₁ ++ l₂) =
      (List.lookup k l₁).orElse (fun _ => List.lookup k l₂) := by
  induction l₁ with
  | nil => simp [List.lookup]
  | cons head tail ih =>
      obtain ⟨a, b⟩ := head
      cases hab : k == a <;> simp [List.lookup, hab, ih, Option.orElse]

theorem lookup_append_of_isSome {α : Type} {k : String}
    {l₁ : List (String × α)} (l₂ : List (String × α))
    (h : (List.lookup k l₁).isSome) :
    List.lookup k (l₁ ++ l₂) = List.lookup k l₁ := by
  rw [lookup_append]
  cases hl : List.lookup k l₁ with
  | none => rw [hl] at h; simp at h
  | some v => simp [Option.orElse]

theorem lookup_append_of_none {α : Type} {k : String}
    {l₁ : List (String × α)} (l₂ : List (String × α))
    (h : List.lookup k l₁ = none) :
    List.lookup k (l₁ ++ l₂) = List.lookup k l₂ := by
  rw [lookup_append, h]
  simp [Option.orElse]

theorem lookup_singleton_ne {α : Type} {k a : String} (b : α)
    (h : ¬ k = a) : List.lookup k [(a, b)] = none := by
  have hab : (k == a) = false := by
    simpa using h
  simp [List.lookup, hab]

theorem lookup_append_singleton_ne {α : Type} {k a : String} (b : α)
    (dst : List (String × α)) (h : ¬ k = a) :
    List.lookup k (dst ++ [(a, b)]) = List.lookup k dst := by
  rw [lookup_append, lookup_singleton_ne b h]
  cases hl : List.lookup k dst <;> simp [Option.orElse]

theorem lookup_of_mem_nodup {α : Type} {k : String} {v : α}
    {l : List (String × α)} (hnd : (l.map Prod.fst).Nodup)
    (hmem : (k, v) ∈ l) : List.lookup k l = some v := by
  induction l with
  | nil => cases hmem
  | cons head tail ih =>
      obtain ⟨a, b⟩ := head
      rw [List.map_cons, List.nodup_cons] at hnd
      rcases List.mem_cons.mp hmem with heq | htail
      · obtain ⟨hk, hv⟩ := Prod.mk.inj heq
        subst hk; subst hv
        simp [List.lookup]
      · have hk : ¬ k = a := by
          intro hkk
          subst hkk
          exact hnd.1 (List.mem_map.mpr ⟨(k, v), htail, rfl⟩)
        have hab : (k == a) = false := by simpa using hk
        simp [List.lookup, hab]
        exact ih hnd.2 htail

theorem mem_of_lookup_eq_some {α : Type} {k : String} {v : α}
    {l : List (String × α)} (h : List.lookup k l = some v) : (k, v) ∈ l := by
  induction l with
  | nil => simp [List.lookup] at h
  | cons head tail ih =>
      obtain ⟨a, b⟩ := head
      cases hab : k == a with
      | true =>
          have hk : k = a := by simpa using hab
          rw [List.lookup, hab] at h
          simp at h
          subst hk; subst h
          exact List.mem_cons_self _ _
      | false =>
          rw [List.lookup, hab] at h
          exact List.mem_cons_of_mem _ (ih h)

/-- Characterisation of one merge pass when the source keys are distinct
(as Go map iteration guarantees): the destination is extended, in order,
by exactly the source entries whose key it does not already hold, and the
recorded errors are exactly the messages of the source entries whose key
it does hold. -/
theorem mergeCollection_eq {α : Type} (mkErr : String → String)
    (src : List (String × α)) :
    ∀ dst : List (String × α), (src.map Prod.fst).Nodup →
      mergeCollection mkErr src dst =
        (dst ++ src.filter (fun kv => (List.lookup kv.1 dst).isNone),
         (src.filter (fun kv => (List.lookup kv.1 dst).isSome)).map
           (fun kv => mkErr kv.1)) := by
  induction src with
  | nil => intro dst _; simp [mergeCollection]
  | cons head rest ih =>
      intro dst hnd
      obtain ⟨k, v⟩ := head
      rw [List.map_cons, List.nodup_cons] at hnd
      by_cases hk : (List.lookup k dst).isSome
      · rw [mergeCollection, if_pos hk, ih dst hnd.2]
        have hkn : ((List.lookup k dst).isNone) = false := by
          cases hl : List.lookup k dst with
          | none => rw [hl] at hk; simp at hk
          | some w => simp
        simp [List.filter_cons, hk, hkn]
      · have hknone : List.lookup k dst = none := by
          cases hl : List.lookup k dst with
          | none => rfl
          | some w => rw [hl] at hk; simp at hk
        rw [mergeCollection, if_neg hk, ih (dst ++ [(k, v)]) hnd.2]
        have hrestN :
            rest.filter (fun kv => (List.lookup kv.1 (dst ++ [(k, v)])).isNone) =
              rest.filter (fun kv => (List.lookup kv.1 dst).isNone) := by
          apply List.filter_congr
          intro kv hkv
          have hne : ¬ kv.1 = k := by
            intro hkk
            exact hnd.1 (List.mem_map.mpr ⟨kv, hkv, hkk⟩)
          rw [lookup_append_singleton_ne v _ hne]
        have hrestS :
            rest.filter (fun kv => (List.lookup kv.1 (dst ++ [(k, v)])).isSome) =
              rest.filter (fun kv => (List.lookup kv.1 dst).isSome) := by
          apply List.filter_congr
          intro kv hkv
          have hne : ¬ kv.1 = k := by
            intro hkk
            exact hnd.1 (List.mem_map.mpr ⟨kv, hkv, hkk⟩)
          rw [lookup_append_singleton_ne v _ hne]
        rw [hrestN, hrestS]
        have hkeep : ((List.lookup k dst).isNone) = true := by
          rw [hknone]; rfl
        have hdrop : ((List.lookup k dst).isSome) = false := by
          rw [hknone]; rfl
        simp [List.filter_cons, hkeep, hdrop]

/-! Field-level unfolding lemmas for `safeMergeTemplates` -/

theorem safeMerge_sourceTemplate (s d : Template) :
    (safeMergeTemplates s d).sourceTemplate = s := rfl

theorem safeMerge_destTemplate (s d : Template) :
    (safeMergeTemplates s d).destTemplate =
      Template.mk
        (mergeCollection duplicateResourceMsg s.Resources d.Resources).1
        (mergeCollection duplicateMappingMsg s.Mappings d.Mappings).1
        (mergeCollection duplicateOutputMsg s.Outputs d.Outputs).1 := rfl

theorem safeMerge_mergeErrors (s d : Template) :
    (safeMergeTemplates s d).mergeErrors =
      (mergeCollection duplicateResourceMsg s.Resources d.Resources).2 ++
        (mergeCollection duplicateMappingMsg s.Mappings d.Mappings).2 ++
        (mergeCollection duplicateOutputMsg s.Outputs d.Outputs).2 := rfl

theorem safeMerge_err_eq (s d : Template) :
    (safeMergeTemplates s d).err =
      (if (safeMergeTemplates s d).mergeErrors.length > 0
       then some "Template merge failed" else none) := rfl

theorem safeMerge_logs_eq (s d : Template) :
    (safeMergeTemplates s d).logs =
      (if (safeMergeTemplates s d).mergeErrors.length > 0
       then "Failed to update template. The following collisions were found:" ::
         (safeMergeTemplates s d).mergeErrors.map (fun eachError => "\t" ++ eachError)
       else []) := rfl

theorem safeMerge_err_isSome_iff (s d : Template) :
    (safeMergeTemplates s d).err.isSome ↔
      (safeMergeTemplates s d).mergeErrors ≠ [] := by
  rw [safeMerge_err_eq]
  by_cases hc : (safeMergeTemplates s d).mergeErrors.length > 0
  · rw [if_pos hc]
    simp only [Option.isSome_some, true_iff]
    intro hnil
    rw [hnil] at hc
    simp at hc
  · rw [if_neg hc]
    have hnil : (safeMergeTemplates s d).mergeErrors = [] :=
      List.eq_nil_of_length_eq_zero (Nat.eq_zero_of_not_pos hc)
    simp [hnil]

theorem safeMerge_log_of_mergeError {s d : Template} {msg : String}
    (h : msg ∈ (safeMergeTemplates s d).mergeErrors) :
    ("\t" ++ msg) ∈ (safeMergeTemplates s d).logs := by
  rw [safeMerge_logs_eq]
  have hc : (safeMergeTemplates s d).mergeErrors.length > 0 :=
    List.length_pos.mpr (List.ne_nil_of_mem h)
  rw [if_pos hc]
  exact List.mem_cons_of_mem _ (List.mem_map.mpr ⟨msg, h, rfl⟩)

/-! Further helper lemmas -/

theorem resourceOutputs_err_none (resourceName : String)
    (resource : ResourceProperties) :
    (resourceOutputs resourceName resource).err = none := by
  cases resource with
  | dynamoDBTable streamSpecification => cases streamSpecification <;> rfl
  | iamRole => rfl
  | kinesisStream => rfl
  | route53RecordSet => rfl
  | s3Bucket => rfl
  | snsTopic => rfl
  | sqsQueue => rfl
  | other kindName => rfl

theorem lookup_isSome_of_mem {α : Type} {kv : String × α}
    {l : List (String × α)} (h : kv ∈ l) : (List.lookup kv.1 l).isSome := by
  induction l with
  | nil => cases h
  | cons head tail ih =>
      obtain ⟨a, b⟩ := head
      rcases List.mem_cons.mp h with heq | htail
      · subst heq; simp [List.lookup]
      · cases hab : kv.1 == a with
        | true => simp [List.lookup, hab]
        | false =>
            rw [List.lookup, hab]
            exact ih htail

theorem mergeCollection_per_key {α : Type} (mkErr : String → String)
    {src dst : List (String × α)} (hnd : (src.map Prod.fst).Nodup)
    {k : String} {v : α} (hmem : (k, v) ∈ src) :
    (∀ vd, List.lookup k dst = some vd →
      mkErr k ∈ (mergeCollection mkErr src dst).2 ∧
        List.lookup k (mergeCollection mkErr src dst).1 = some vd) ∧
    (List.lookup k dst = none →
      List.lookup k (mergeCollection mkErr src dst).1 = some v) := by
  rw [mergeCollection_eq mkErr src dst hnd]
  constructor
  · intro vd hvd
    have hs : (List.lookup k dst).isSome := by simp [hvd]
    constructor
    · exact List.mem_map.mpr ⟨(k, v), List.mem_filter.mpr ⟨hmem, hs⟩, rfl⟩
    · rw [lookup_append_of_isSome _ hs, hvd]
  · intro hnone
    rw [lookup_append_of_none _ hnone]
    have hsub :
        ((src.filter (fun kv => (List.lookup kv.1 dst).isNone)).map Prod.fst).Nodup :=
      hnd.sublist ((List.filter_sublist src).map Prod.fst)
    exact lookup_of_mem_nodup hsub
      (List.mem_filter.mpr ⟨hmem, by simp [hnone]⟩)

theorem mergeCollection_error_of_collision {α : Type} (mkErr : String → String)
    {src dst : List (String × α)} (hnd : (src.map Prod.fst).Nodup)
    {kv : String × α} (hmem : kv ∈ src)
    (hcol : (List.lookup kv.1 dst).isSome) :
    mkErr kv.1 ∈ (mergeCollection mkErr src dst).2 := by
  rw [mergeCollection_eq mkErr src dst hnd]
  exact List.mem_map.mpr ⟨kv, List.mem_filter.mpr ⟨hmem, hcol⟩, rfl⟩

theorem mergeCollection_errors_ne_nil_iff {α : Type} (mkErr : String → String)
    {src dst : List (String × α)} (hnd : (src.map Prod.fst).Nodup) :
    (mergeCollection mkErr src dst).2 ≠ [] ↔
      ∃ kv ∈ src, (List.lookup kv.1 dst).isSome := by
  rw [mergeCollection_eq mkErr src dst hnd]
  simp only [ne_eq, List.map_eq_nil_iff, List.filter_eq_nil_iff, not_forall]
  constructor
  · rintro ⟨kv, hkv, hp⟩
    exact ⟨kv, hkv, by simpa using hp⟩
  · rintro ⟨kv, hkv, hp⟩
    exact ⟨kv, hkv, by simpa using hp⟩

theorem mergeCollection_disjoint {α : Type} (mkErr : String → String)
    {src dst : List (String × α)} (hnd : (src.map Prod.fst).Nodup)
    (hdisj : ∀ kv ∈ src, List.lookup kv.1 dst = none) :
    mergeCollection mkErr src dst = (dst ++ src, []) := by
  rw [mergeCollection_eq mkErr src dst hnd]
  have h1 : src.filter (fun kv => (List.lookup kv.1 dst).isNone) = src :=
    List.filter_eq_self.mpr (fun kv hkv => by simp [hdisj kv hkv])
  have h2 : src.filter (fun kv => (List.lookup kv.1 dst).isSome) = [] :=
    List.filter_eq_nil_iff.mpr (fun kv hkv => by simp [hdisj kv hkv])
  rw [h1, h2]
  rfl

theorem lookup_append_comm_of_disjoint {α : Type}
    {l₁ l₂ : List (String × α)}
    (hd : ∀ kv ∈ l₁, List.lookup kv.1 l₂ = none) (k : String) :
    List.lookup k (l₁ ++ l₂) = List.lookup k (l₂ ++ l₁) := by
  rw [lookup_append, lookup_append]
  cases h1 : List.lookup k l₁ with
  | none => cases h2 : List.lookup k l₂ <;> simp [Option.orElse]
  | some v =>
      have h2 : List.lookup k l₂ = none := hd (k, v) (mem_of_lookup_eq_some h1)
      rw [h2]
      simp [Option.orElse]

/-! Claim theorems -/

/-- C4: for every supported resource kind, `resourceOutputs` returns
exactly the fixed attribute list of the policy table, in order: identity
role (IAMRole) none; table-storage (DynamoDBTable) `["StreamArn"]` exactly
when a stream specification is declared, else `[]`; stream (KinesisStream)
`["Arn"]`; DNS record set (Route53RecordSet) none; object-storage bucket
(S3Bucket) `["DomainName", "WebsiteURL"]`; pub/sub topic (SNSTopic)
`["TopicName"]`; queue (SQSQueue) `["Arn", "QueueName"]`. -/
theorem resourceOutputs_policy_table (resourceName : String)
    (spec : StreamSpecification) :
    (resourceOutputs resourceName ResourceProperties.iamRole).outputProps = [] ∧
    (resourceOutputs resourceName
      (ResourceProperties.dynamoDBTable (some spec))).outputProps = ["StreamArn"] ∧
    (resourceOutputs resourceName
      (ResourceProperties.dynamoDBTable none)).outputProps = [] ∧
    (resourceOutputs resourceName ResourceProperties.kinesisStream).outputProps
      = ["Arn"] ∧
    (resourceOutputs resourceName ResourceProperties.route53RecordSet).outputProps
      = [] ∧
    (resourceOutputs resourceName ResourceProperties.s3Bucket).outputProps
      = ["DomainName", "WebsiteURL"] ∧
    (resourceOutputs resourceName ResourceProperties.snsTopic).outputProps
      = ["TopicName"] ∧
    (resourceOutputs resourceName ResourceProperties.sqsQueue).outputProps
      = ["Arn", "QueueName"] :=
  ⟨rfl, rfl, rfl, rfl, rfl, rfl, rfl, rfl⟩

/-- C6: `resourceOutputs` is total: for every resource-kind instance it
returns a nil error, and every unrecognized kind yields the empty
attribute sequence (while emitting a warning naming the kind). -/
theorem resourceOutputs_total (resourceName kindName : String)
    (resource : ResourceProperties) :
    (resourceOutputs resourceName resource).err = none ∧
    (resourceOutputs resourceName
      (ResourceProperties.other kindName)).outputProps = [] :=
  ⟨resourceOutputs_err_none resourceName resource, rfl⟩

/-- C7: for every template and every logical resource name absent from the
Resources collection of the template, `discoveryResourceInfoForDependency`
returns an absent result (nil bytes) and a nil error. -/
theorem discoveryResourceInfo_absent_name (t : Template)
    (logicalResourceName : String)
    (h : List.lookup logicalResourceName t.Resources = none) :
    discoveryResourceInfoForDependency t logicalResourceName = (none, none) := by
  unfold discoveryResourceInfoForDependency
  rw [h]

theorem discoveryResourceInfo_absent_name_witness :
    List.lookup "NotThere" (Template.mk [] [] []).Resources = none ∧
    discoveryResourceInfoForDependency (Template.mk [] [] []) "NotThere" =
      (none, none) :=
  ⟨rfl, discoveryResourceInfo_absent_name (Template.mk [] [] []) "NotThere" rfl⟩

/-- C9: when the factory cannot produce a property object
(`gocf.NewResourceByType` returns nil), `newCloudFormationResource` does
NOT return the explicit error result: it calls `logger.Fatal`, which in
Sirupsen/logrus aborts the process with exit code 1, so the observable
outcome at this failing input is a process exit, not a returned error. -/
theorem newCloudFormationResource_exits_on_unsupported :
    newCloudFormationResource (fun _ => none) "AWS::Fake::Fake" =
      GoOutcome.exit 1 "Failed to create CloudFormation CustomResource!" := rfl

/-- C10: `safeMergeTemplates` never mutates the source template: the
Resources, Mappings, and Outputs collections of the source are exactly the
same after the call as before it, whether the merge succeeds or fails. -/
theorem safeMergeTemplates_source_unchanged (s d : Template) :
    (safeMergeTemplates s d).sourceTemplate.Resources = s.Resources ∧
    (safeMergeTemplates s d).sourceTemplate.Mappings = s.Mappings ∧
    (safeMergeTemplates s d).sourceTemplate.Outputs = s.Outputs :=
  ⟨rfl, rfl, rfl⟩

/-- C1: for each of the three collections independently, every source key
already present in the destination is recorded as a collision message in
`mergeErrors` and its destination value is not overwritten, and every
source key absent from the destination is inserted with the value
from the source. -/
theorem safeMergeTemplates_per_key (s d : Template)
    (hr : (s.Resources.map Prod.fst).Nodup)
    (hm : (s.Mappings.map Prod.fst).Nodup)
    (ho : (s.Outputs.map Prod.fst).Nodup) :
    (∀ k v, (k, v) ∈ s.Resources →
      (∀ vd, List.lookup k d.Resources = some vd →
        duplicateResourceMsg k ∈ (safeMergeTemplates s d).mergeErrors ∧
          List.lookup k (safeMergeTemplates s d).destTemplate.Resources = some vd) ∧
      (List.lookup k d.Resources = none →
        List.lookup k (safeMergeTemplates s d).destTemplate.Resources = some v)) ∧
    (∀ k v, (k, v) ∈ s.Mappings →
      (∀ vd, List.lookup k d.Mappings = some vd →
        duplicateMappingMsg k ∈ (safeMergeTemplates s d).mergeErrors ∧
          List.lookup k (safeMergeTemplates s d).destTemplate.Mappings = some vd) ∧
      (List.lookup k d.Mappings = none →
        List.lookup k (safeMergeTemplates s d).destTemplate.Mappings = some v)) ∧
    (∀ k v, (k, v) ∈ s.Outputs →
      (∀ vd, List.lookup k d.Outputs = some vd →
        duplicateOutputMsg k ∈ (safeMergeTemplates s d).mergeErrors ∧
          List.lookup k (safeMergeTemplates s d).destTemplate.Outputs = some vd) ∧
      (List.lookup k d.Outputs = none →
        List.lookup k (safeMergeTemplates s d).destTemplate.Outputs = some v)) := by
  refine ⟨?_, ?_, ?_⟩
  · intro k v hmem
    have h := @mergeCollection_per_key Resource duplicateResourceMsg
      s.Resources d.Resources hr k v hmem
    constructor
    · intro vd hvd
      obtain ⟨h1, h2⟩ := h.1 vd hvd
      refine ⟨?_, h2⟩
      rw [safeMerge_mergeErrors]
      exact List.mem_append.mpr (Or.inl (List.mem_append.mpr (Or.inl h1)))
    · intro hnone
      exact h.2 hnone
  · intro k v hmem
    have h := @mergeCollection_per_key MappingEntry duplicateMappingMsg
      s.Mappings d.Mappings hm k v hmem
    constructor
    · intro vd hvd
      obtain ⟨h1, h2⟩ := h.1 vd hvd
      refine ⟨?_, h2⟩
      rw [safeMerge_mergeErrors]
      exact List.mem_append.mpr (Or.inl (List.mem_append.mpr (Or.inr h1)))
    · intro hnone
      exact h.2 hnone
  · intro k v hmem
    have h := @mergeCollection_per_key OutputEntry duplicateOutputMsg
      s.Outputs d.Outputs ho k v hmem
    constructor
    · intro vd hvd
      obtain ⟨h1, h2⟩ := h.1 vd hvd
      refine ⟨?_, h2⟩
      rw [safeMerge_mergeErrors]
      exact List.mem_append.mpr (Or.inr h1)
    · intro hnone
      exact h.2 hnone

theorem safeMergeTemplates_per_key_witness :
    ((wSrc.Resources.map Prod.fst).Nodup ∧
     (wSrc.Mappings.map Prod.fst).Nodup ∧
     (wSrc.Outputs.map Prod.fst).Nodup) ∧
    ((∀ k v, (k, v) ∈ wSrc.Resources →
      (∀ vd, List.lookup k wDst.Resources = some vd →
        duplicateResourceMsg k ∈ (safeMergeTemplates wSrc wDst).mergeErrors ∧
          List.lookup k (safeMergeTemplates wSrc wDst).destTemplate.Resources = some vd) ∧
      (List.lookup k wDst.Resources = none →
        List.lookup k (safeMergeTemplates wSrc wDst).destTemplate.Resources = some v)) ∧
    (∀ k v, (k, v) ∈ wSrc.Mappings →
      (∀ vd, List.lookup k wDst.Mappings = some vd →
        duplicateMappingMsg k ∈ (safeMergeTemplates wSrc wDst).mergeErrors ∧
          List.lookup k (safeMergeTemplates wSrc wDst).destTemplate.Mappings = some vd) ∧
      (List.lookup k wDst.Mappings = none →
        List.lookup k (safeMergeTemplates wSrc wDst).destTemplate.Mappings = some v)) ∧
    (∀ k v, (k, v) ∈ wSrc.Outputs →
      (∀ vd, List.lookup k wDst.Outputs = some vd →
        duplicateOutputMsg k ∈ (safeMergeTemplates wSrc wDst).mergeErrors ∧
          List.lookup k (safeMergeTemplates wSrc wDst).destTemplate.Outputs = some vd) ∧
      (List.lookup k wDst.Outputs = none →
        List.lookup k (safeMergeTemplates wSrc wDst).destTemplate.Outputs = some v))) :=
  ⟨⟨by decide, by decide, by decide⟩,
    safeMergeTemplates_per_key wSrc wDst (by decide) (by decide) (by decide)⟩

/-- C3: the merge is not rolled back on failure: even when the call
returns the failure error, every non-colliding source entry (in each of
the three collections) is still present in the destination afterwards. -/
theorem safeMergeTemplates_partial_merge (s d : Template)
    (hr : (s.Resources.map Prod.fst).Nodup)
    (hm : (s.Mappings.map Prod.fst).Nodup)
    (ho : (s.Outputs.map Prod.fst).Nodup)
    (hfail : (safeMergeTemplates s d).err.isSome) :
    (∀ k v, (k, v) ∈ s.Resources → List.lookup k d.Resources = none →
      List.lookup k (safeMergeTemplates s d).destTemplate.Resources = some v) ∧
    (∀ k v, (k, v) ∈ s.Mappings → List.lookup k d.Mappings = none →
      List.lookup k (safeMergeTemplates s d).destTemplate.Mappings = some v) ∧
    (∀ k v, (k, v) ∈ s.Outputs → List.lookup k d.Outputs = none →
      List.lookup k (safeMergeTemplates s d).destTemplate.Outputs = some v) := by
  refine ⟨?_, ?_, ?_⟩
  · intro k v hmem hnone
    exact (@mergeCollection_per_key Resource duplicateResourceMsg
      s.Resources d.Resources hr k v hmem).2 hnone
  · intro k v hmem hnone
    exact (@mergeCollection_per_key MappingEntry duplicateMappingMsg
      s.Mappings d.Mappings hm k v hmem).2 hnone
  · intro k v hmem hnone
    exact (@mergeCollection_per_key OutputEntry duplicateOutputMsg
      s.Outputs d.Outputs ho k v hmem).2 hnone

theorem safeMergeTemplates_partial_merge_witness :
    ((wSrc.Resources.map Prod.fst).Nodup ∧
     (wSrc.Mappings.map Prod.fst).Nodup ∧
     (wSrc.Outputs.map Prod.fst).Nodup ∧
     (safeMergeTemplates wSrc wDst).err.isSome) ∧
    ((∀ k v, (k, v) ∈ wSrc.Resources → List.lookup k wDst.Resources = none →
      List.lookup k (safeMergeTemplates wSrc wDst).destTemplate.Resources = some v) ∧
    (∀ k v, (k, v) ∈ wSrc.Mappings → List.lookup k wDst.Mappings = none →
      List.lookup k (safeMergeTemplates wSrc wDst).destTemplate.Mappings = some v) ∧
    (∀ k v, (k, v) ∈ wSrc.Outputs → List.lookup k wDst.Outputs = none →
      List.lookup k (safeMergeTemplates wSrc wDst).destTemplate.Outputs = some v)) :=
  ⟨⟨by decide, by decide, by decide, by decide⟩,
    safeMergeTemplates_partial_merge wSrc wDst
      (by decide) (by decide) (by decide) (by decide)⟩

/-- C2: `safeMergeTemplates` returns the failure error exactly when at
least one collision exists across the three collections, and on failure
every collision is itemized: its message is in `mergeErrors` and its
tab-indented line is among the logged report lines, for all three
collections in the same call.  With zero collisions the returned error is
nil. -/
theorem safeMergeTemplates_failure_iff_itemized (s d : Template)
    (hr : (s.Resources.map Prod.fst).Nodup)
    (hm : (s.Mappings.map Prod.fst).Nodup)
    (ho : (s.Outputs.map Prod.fst).Nodup) :
    ((safeMergeTemplates s d).err.isSome ↔
      ((∃ kv ∈ s.Resources, (List.lookup kv.1 d.Resources).isSome) ∨
       (∃ kv ∈ s.Mappings, (List.lookup kv.1 d.Mappings).isSome) ∨
       (∃ kv ∈ s.Outputs, (List.lookup kv.1 d.Outputs).isSome))) ∧
    (∀ kv ∈ s.Resources, (List.lookup kv.1 d.Resources).isSome →
      duplicateResourceMsg kv.1 ∈ (safeMergeTemplates s d).mergeErrors ∧
        ("\t" ++ duplicateResourceMsg kv.1) ∈ (safeMergeTemplates s d).logs) ∧
    (∀ kv ∈ s.Mappings, (List.lookup kv.1 d.Mappings).isSome →
      duplicateMappingMsg kv.1 ∈ (safeMergeTemplates s d).mergeErrors ∧
        ("\t" ++ duplicateMappingMsg kv.1) ∈ (safeMergeTemplates s d).logs) ∧
    (∀ kv ∈ s.Outputs, (List.lookup kv.1 d.Outputs).isSome →
      duplicateOutputMsg kv.1 ∈ (safeMergeTemplates s d).mergeErrors ∧
        ("\t" ++ duplicateOutputMsg kv.1) ∈ (safeMergeTemplates s d).logs) := by
  refine ⟨?_, ?_, ?_, ?_⟩
  · rw [safeMerge_err_isSome_iff, safeMerge_mergeErrors,
      ← @mergeCollection_errors_ne_nil_iff Resource duplicateResourceMsg
        s.Resources d.Resources hr,
      ← @mergeCollection_errors_ne_nil_iff MappingEntry duplicateMappingMsg
        s.Mappings d.Mappings hm,
      ← @mergeCollection_errors_ne_nil_iff OutputEntry duplicateOutputMsg
        s.Outputs d.Outputs ho]
    constructor
    · intro h
      by_contra hcon
      push_neg at hcon
      exact h (by rw [hcon.1, hcon.2.1, hcon.2.2]; rfl)
    · intro h hnil
      rcases List.append_eq_nil.mp hnil with ⟨hab, hc⟩
      rcases List.append_eq_nil.mp hab with ⟨ha, hb⟩
      rcases h with h | h | h
      · exact h ha
      · exact h hb
      · exact h hc
  · intro kv hmem hcol
    have h1 := mergeCollection_error_of_collision duplicateResourceMsg hr hmem hcol
    have h2 : duplicateResourceMsg kv.1 ∈ (safeMergeTemplates s d).mergeErrors := by
      rw [safeMerge_mergeErrors]
      exact List.mem_append.mpr (Or.inl (List.mem_append.mpr (Or.inl h1)))
    exact ⟨h2, safeMerge_log_of_mergeError h2⟩
  · intro kv hmem hcol
    have h1 := mergeCollection_error_of_collision duplicateMappingMsg hm hmem hcol
    have h2 : duplicateMappingMsg kv.1 ∈ (safeMergeTemplates s d).mergeErrors := by
      rw [safeMerge_mergeErrors]
      exact List.mem_append.mpr (Or.inl (List.mem_append.mpr (Or.inr h1)))
    exact ⟨h2, safeMerge_log_of_mergeError h2⟩
  · intro kv hmem hcol
    have h1 := mergeCollection_error_of_collision duplicateOutputMsg ho hmem hcol
    have h2 : duplicateOutputMsg kv.1 ∈ (safeMergeTemplates s d).mergeErrors := by
      rw [safeMerge_mergeErrors]
      exact List.mem_append.mpr (Or.inr h1)
    exact ⟨h2, safeMerge_log_of_mergeError h2⟩

theorem safeMergeTemplates_failure_iff_itemized_witness :
    ((wSrc.Resources.map Prod.fst).Nodup ∧
     (wSrc.Mappings.map Prod.fst).Nodup ∧
     (wSrc.Outputs.map Prod.fst).Nodup) ∧
    (((safeMergeTemplates wSrc wDst2).err.isSome ↔
      ((∃ kv ∈ wSrc.Resources, (List.lookup kv.1 wDst2.Resources).isSome) ∨
       (∃ kv ∈ wSrc.Mappings, (List.lookup kv.1 wDst2.Mappings).isSome) ∨
       (∃ kv ∈ wSrc.Outputs, (List.lookup kv.1 wDst2.Outputs).isSome))) ∧
    (∀ kv ∈ wSrc.Resources, (List.lookup kv.1 wDst2.Resources).isSome →
      duplicateResourceMsg kv.1 ∈ (safeMergeTemplates wSrc wDst2).mergeErrors ∧
        ("\t" ++ duplicateResourceMsg kv.1) ∈ (safeMergeTemplates wSrc wDst2).logs) ∧
    (∀ kv ∈ wSrc.Mappings, (List.lookup kv.1 wDst2.Mappings).isSome →
      duplicateMappingMsg kv.1 ∈ (safeMergeTemplates wSrc wDst2).mergeErrors ∧
        ("\t" ++ duplicateMappingMsg kv.1) ∈ (safeMergeTemplates wSrc wDst2).logs) ∧
    (∀ kv ∈ wSrc.Outputs, (List.lookup kv.1 wDst2.Outputs).isSome →
      duplicateOutputMsg kv.1 ∈ (safeMergeTemplates wSrc wDst2).mergeErrors ∧
        ("\t" ++ duplicateOutputMsg kv.1) ∈ (safeMergeTemplates wSrc wDst2).logs)) :=
  ⟨⟨by decide, by decide, by decide⟩,
    safeMergeTemplates_failure_iff_itemized wSrc wDst2
      (by decide) (by decide) (by decide)⟩

theorem lookup_none_of_disjoint {α : Type} {l₁ l₂ : List (String × α)}
    (hd : ∀ kv ∈ l₁, List.lookup kv.1 l₂ = none) :
    ∀ kv ∈ l₂, List.lookup kv.1 l₁ = none := by
  intro kv hkv
  cases hl : List.lookup kv.1 l₁ with
  | none => rfl
  | some v =>
      have h0 := hd (kv.1, v) (mem_of_lookup_eq_some hl)
      have hs := lookup_isSome_of_mem hkv
      rw [h0] at hs
      simp at hs

/-- C8: for templates whose key sets are disjoint in all three
collections, merging succeeds in either direction, and the resulting
destination holds exactly the union of the entries of both templates in each
collection (every key resolves to the value the destination held if any,
otherwise to the value the source held, otherwise to nothing), identically
whichever template plays the source role. -/
theorem safeMergeTemplates_disjoint_union_comm (s d : Template)
    (hsr : (s.Resources.map Prod.fst).Nodup)
    (hsm : (s.Mappings.map Prod.fst).Nodup)
    (hso : (s.Outputs.map Prod.fst).Nodup)
    (hdr : (d.Resources.map Prod.fst).Nodup)
    (hdm : (d.Mappings.map Prod.fst).Nodup)
    (hdo : (d.Outputs.map Prod.fst).Nodup)
    (hdisjR : ∀ kv ∈ s.Resources, List.lookup kv.1 d.Resources = none)
    (hdisjM : ∀ kv ∈ s.Mappings, List.lookup kv.1 d.Mappings = none)
    (hdisjO : ∀ kv ∈ s.Outputs, List.lookup kv.1 d.Outputs = none) :
    (safeMergeTemplates s d).err = none ∧
    (safeMergeTemplates d s).err = none ∧
    (∀ k, List.lookup k (safeMergeTemplates s d).destTemplate.Resources =
      (List.lookup k d.Resources).orElse (fun _ => List.lookup k s.Resources)) ∧
    (∀ k, List.lookup k (safeMergeTemplates s d).destTemplate.Mappings =
      (List.lookup k d.Mappings).orElse (fun _ => List.lookup k s.Mappings)) ∧
    (∀ k, List.lookup k (safeMergeTemplates s d).destTemplate.Outputs =
      (List.lookup k d.Outputs).orElse (fun _ => List.lookup k s.Outputs)) ∧
    (∀ k, List.lookup k (safeMergeTemplates s d).destTemplate.Resources =
      List.lookup k (safeMergeTemplates d s).destTemplate.Resources) ∧
    (∀ k, List.lookup k (safeMergeTemplates s d).destTemplate.Mappings =
      List.lookup k (safeMergeTemplates d s).destTemplate.Mappings) ∧
    (∀ k, List.lookup k (safeMergeTemplates s d).destTemplate.Outputs =
      List.lookup k (safeMergeTemplates d s).destTemplate.Outputs) := by
  have eR := mergeCollection_disjoint duplicateResourceMsg hsr hdisjR
  have eM := mergeCollection_disjoint duplicateMappingMsg hsm hdisjM
  have eO := mergeCollection_disjoint duplicateOutputMsg hso hdisjO
  have eR2 := mergeCollection_disjoint duplicateResourceMsg hdr
    (lookup_none_of_disjoint hdisjR)
  have eM2 := mergeCollection_disjoint duplicateMappingMsg hdm
    (lookup_none_of_disjoint hdisjM)
  have eO2 := mergeCollection_disjoint duplicateOutputMsg hdo
    (lookup_none_of_disjoint hdisjO)
  have hRes : (safeMergeTemplates s d).destTemplate.Resources =
      d.Resources ++ s.Resources := by
    have hh : (safeMergeTemplates s d).destTemplate.Resources =
        (mergeCollection duplicateResourceMsg s.Resources d.Resources).1 := rfl
    rw [hh, eR]
  have hMap : (safeMergeTemplates s d).destTemplate.Mappings =
      d.Mappings ++ s.Mappings := by
    have hh : (safeMergeTemplates s d).destTemplate.Mappings =
        (mergeCollection duplicateMappingMsg s.Mappings d.Mappings).1 := rfl
    rw [hh, eM]
  have hOut : (safeMergeTemplates s d).destTemplate.Outputs =
      d.Outputs ++ s.Outputs := by
    have hh : (safeMergeTemplates s d).destTemplate.Outputs =
        (mergeCollection duplicateOutputMsg s.Outputs d.Outputs).1 := rfl
    rw [hh, eO]
  have hRes2 : (safeMergeTemplates d s).destTemplate.Resources =
      s.Resources ++ d.Resources := by
    have hh : (safeMergeTemplates d s).destTemplate.Resources =
        (mergeCollection duplicateResourceMsg d.Resources s.Resources).1 := rfl
    rw [hh, eR2]
  have hMap2 : (safeMergeTemplates d s).destTemplate.Mappings =
      s.Mappings ++ d.Mappings := by
    have hh : (safeMergeTemplates d s).destTemplate.Mappings =
        (mergeCollection duplicateMappingMsg d.Mappings s.Mappings).1 := rfl
    rw [hh, eM2]
  have hOut2 : (safeMergeTemplates d s).destTemplate.Outputs =
      s.Outputs ++ d.Outputs := by
    have hh : (safeMergeTemplates d s).destTemplate.Outputs =
        (mergeCollection duplicateOutputMsg d.Outputs s.Outputs).1 := rfl
    rw [hh, eO2]
  refine ⟨?_, ?_, ?_, ?_, ?_, ?_, ?_, ?_⟩
  · rw [safeMerge_err_eq, safeMerge_mergeErrors, eR, eM, eO]
    simp
  · rw [safeMerge_err_eq, safeMerge_mergeErrors, eR2, eM2, eO2]
    simp
  · intro k
    rw [hRes, lookup_append]
  · intro k
    rw [hMap, lookup_append]
  · intro k
    rw [hOut, lookup_append]
  · intro k
    rw [hRes, hRes2]
    exact lookup_append_comm_of_disjoint (lookup_none_of_disjoint hdisjR) k
  · intro k
    rw [hMap, hMap2]
    exact lookup_append_comm_of_disjoint (lookup_none_of_disjoint hdisjM) k
  · intro k
    rw [hOut, hOut2]
    exact lookup_append_comm_of_disjoint (lookup_none_of_disjoint hdisjO) k

theorem safeMergeTemplates_disjoint_union_comm_witness :
    ((wSrc.Resources.map Prod.fst).Nodup ∧
     (wDst3.Resources.map Prod.fst).Nodup ∧
     (∀ kv ∈ wSrc.Resources, List.lookup kv.1 wDst3.Resources = none) ∧
     (∀ kv ∈ wSrc.Mappings, List.lookup kv.1 wDst3.Mappings = none) ∧
     (∀ kv ∈ wSrc.Outputs, List.lookup kv.1 wDst3.Outputs = none)) ∧
    ((safeMergeTemplates wSrc wDst3).err = none ∧
    (safeMergeTemplates wDst3 wSrc).err = none ∧
    (∀ k, List.lookup k (safeMergeTemplates wSrc wDst3).destTemplate.Resources =
      (List.lookup k wDst3.Resources).orElse (fun _ => List.lookup k wSrc.Resources)) ∧
    (∀ k, List.lookup k (safeMergeTemplates wSrc wDst3).destTemplate.Mappings =
      (List.lookup k wDst3.Mappings).orElse (fun _ => List.lookup k wSrc.Mappings)) ∧
    (∀ k, List.lookup k (safeMergeTemplates wSrc wDst3).destTemplate.Outputs =
      (List.lookup k wDst3.Outputs).orElse (fun _ => List.lookup k wSrc.Outputs)) ∧
    (∀ k, List.lookup k (safeMergeTemplates wSrc wDst3).destTemplate.Resources =
      List.lookup k (safeMergeTemplates wDst3 wSrc).destTemplate.Resources) ∧
    (∀ k, List.lookup k (safeMergeTemplates wSrc wDst3).destTemplate.Mappings =
      List.lookup k (safeMergeTemplates wDst3 wSrc).destTemplate.Mappings) ∧
    (∀ k, List.lookup k (safeMergeTemplates wSrc wDst3).destTemplate.Outputs =
      List.lookup k (safeMergeTemplates wDst3 wSrc).destTemplate.Outputs)) :=
  ⟨⟨by decide, by decide, by decide, by decide, by decide⟩,
    safeMergeTemplates_disjoint_union_comm wSrc wDst3
      (by decide) (by decide) (by decide) (by decide) (by decide) (by decide)
      (by decide) (by decide) (by decide)⟩

/-- C5: every rendered discovery document has the fixed wire shape: the
logical name as `ResourceID`, the `Ref` and `Fn::GetAtt` expressions as
literal text inside JSON string values referencing the logical name, and
one `Properties` entry per resolved attribute joined by commas; in
particular a queue resource named `MyQueue` renders to exactly the literal
document with the two entries `Arn` and `QueueName`, each fetch expression
referencing `MyQueue`. -/
theorem discoveryResourceInfo_wire_shape (t : Template) (item : Resource)
    (h1 : List.lookup "MyQueue" t.Resources = some item)
    (h2 : item.Properties = ResourceProperties.sqsQueue) :
    (∀ (t2 : Template) (name : String) (item2 : Resource),
      List.lookup name t2.Resources = some item2 →
        discoveryResourceInfoForDependency t2 name =
          (some (discoverySeg0 ++ name ++ discoverySeg1 ++ name ++
            discoverySeg2 ++ CfnResourceType item2.Properties ++
            discoverySeg3 ++
            String.intercalate ","
              ((resourceOutputs name item2.Properties).outputProps.map
                (fun eachOutput => quotedAttr name eachOutput)) ++
            discoverySeg4), none)) ∧
    discoveryResourceInfoForDependency t "MyQueue" =
      (some ("\n\t\x7b\n\t\t\"ResourceID\" : \"MyQueue\",\n\t\t\"ResourceRef\" : \"\x7b\"Ref\":\"MyQueue\"\x7d\",\n\t\t\"ResourceType\" : \"AWS::SQS::Queue\",\n\t\t\"Properties\" : \x7b\n\t\t\t\"Arn\" :\"\x7b \"Fn::GetAtt\" : [ \"MyQueue\", \"Arn\" ] \x7d\",\"QueueName\" :\"\x7b \"Fn::GetAtt\" : [ \"MyQueue\", \"QueueName\" ] \x7d\"\n\t\t\x7d\n\t\x7d\n"),
       none) := by
  have hgen : ∀ (t2 : Template) (name : String) (item2 : Resource),
      List.lookup name t2.Resources = some item2 →
        discoveryResourceInfoForDependency t2 name =
          (some (discoverySeg0 ++ name ++ discoverySeg1 ++ name ++
            discoverySeg2 ++ CfnResourceType item2.Properties ++
            discoverySeg3 ++
            String.intercalate ","
              ((resourceOutputs name item2.Properties).outputProps.map
                (fun eachOutput => quotedAttr name eachOutput)) ++
            discoverySeg4), none) := by
    intro t2 name item2 hl
    simp only [discoveryResourceInfoForDependency, hl, resourceOutputs_err_none,
      executeDiscoveryTemplate]
  refine ⟨hgen, ?_⟩
  have hq := hgen t "MyQueue" item h1
  rw [h2] at hq
  rw [hq]
  decide

theorem discoveryResourceInfo_wire_shape_witness :
    (List.lookup "MyQueue" wTQ.Resources =
        some (Resource.mk ResourceProperties.sqsQueue none none) ∧
      (Resource.mk ResourceProperties.sqsQueue none none).Properties =
        ResourceProperties.sqsQueue) ∧
    ((∀ (t2 : Template) (name : String) (item2 : Resource),
      List.lookup name t2.Resources = some item2 →
        discoveryResourceInfoForDependency t2 name =
          (some (discoverySeg0 ++ name ++ discoverySeg1 ++ name ++
            discoverySeg2 ++ CfnResourceType item2.Properties ++
            discoverySeg3 ++
            String.intercalate ","
              ((resourceOutputs name item2.Properties).outputProps.map
                (fun eachOutput => quotedAttr name eachOutput)) ++
            discoverySeg4), none)) ∧
    discoveryResourceInfoForDependency wTQ "MyQueue" =
      (some ("\n\t\x7b\n\t\t\"ResourceID\" : \"MyQueue\",\n\t\t\"ResourceRef\" : \"\x7b\"Ref\":\"MyQueue\"\x7d\",\n\t\t\"ResourceType\" : \"AWS::SQS::Queue\",\n\t\t\"Properties\" : \x7b\n\t\t\t\"Arn\" :\"\x7b \"Fn::GetAtt\" : [ \"MyQueue\", \"Arn\" ] \x7d\",\"QueueName\" :\"\x7b \"Fn::GetAtt\" : [ \"MyQueue\", \"QueueName\" ] \x7d\"\n\t\t\x7d\n\t\x7d\n"),
       none)) :=
  ⟨⟨by decide, by decide⟩,
    discoveryResourceInfo_wire_shape wTQ
      (Resource.mk ResourceProperties.sqsQueue none none) (by decide) (by decide)⟩

end Sparta
